import Mathlib

/-!
Verification of the counter state container in
`src/client/src/features/counter/counterSlice.ts`.

The slice owns a `CounterState` record (an integer `value` and a
tri-state `status` flag), three synchronous reducers
(`increment`, `decrement`, `incrementByAmount`), the three lifecycle
reducers of the `incrementAsync` thunk (pending / fulfilled / rejected),
the selector `selectCount`, and the hand-written thunk `incrementIfOdd`.
JavaScript numbers used by the slice are modelled as `Int`; the
JavaScript remainder operator `%` truncates toward zero, which is
`Int.tmod` in Lean.
-/

namespace CounterSlice

/-- The `status` field of `CounterState`: `'idle' | 'loading' | 'failed'`. -/
inductive Status where
  | idle
  | loading
  | failed
  deriving DecidableEq, Repr

/-- `CounterState` from counterSlice.ts: `{ value: number; status: ... }`. -/
structure CounterState where
  value : Int
  status : Status
  deriving DecidableEq, Repr

/-- `initialState`: `{ value: 0, status: 'idle' }`. -/
def initialState : CounterState := { value := 0, status := Status.idle }

/-- Reducer `increment`: `state.value += 1`. -/
def increment (s : CounterState) : CounterState :=
  { s with value := s.value + 1 }

/-- Reducer `decrement`: `state.value -= 1`. -/
def decrement (s : CounterState) : CounterState :=
  { s with value := s.value - 1 }

/-- Reducer `incrementByAmount`: `state.value += action.payload`. -/
def incrementByAmount (s : CounterState) (payload : Int) : CounterState :=
  { s with value := s.value + payload }

/-- Extra reducer for `incrementAsync.pending`: `state.status = 'loading'`. -/
def incrementAsyncPending (s : CounterState) : CounterState :=
  { s with status := Status.loading }

/-- Extra reducer for `incrementAsync.fulfilled`:
`state.status = 'idle'; state.value += action.payload`. -/
def incrementAsyncFulfilled (s : CounterState) (payload : Int) : CounterState :=
  { s with status := Status.idle, value := s.value + payload }

/-- Extra reducer for `incrementAsync.rejected`: `state.status = 'failed'`. -/
def incrementAsyncRejected (s : CounterState) : CounterState :=
  { s with status := Status.failed }

/-- The application `RootState`; the slice only ever touches its
`counter` field. -/
structure RootState where
  counter : CounterState
  deriving DecidableEq, Repr

/-- `selectCount = (state: RootState) => state.counter.value`. -/
def selectCount (s : RootState) : Int := s.counter.value

/-- Dispatching a counter reducer updates the `counter` field of the
root state. -/
def dispatchCounter (f : CounterState → CounterState) (s : RootState) : RootState :=
  { s with counter := f s.counter }

/-- Modelled from the spec: `fetchCount` lives in
`src/client/src/features/counter/counterAPI.ts`, which is not part of the
sources. Per the spec it resolves, after a simulated delay, with
`data = amount` (an echo). -/
def fetchCount (amount : Int) : Int := amount

/-- The `fulfilled` payload of `incrementAsync(amount)` is the value the
thunk body returns, namely `(await fetchCount(amount)).data`. -/
def incrementAsyncPayload (amount : Int) : Int := fetchCount amount

/-- The thunk `incrementIfOdd(amount)`: reads `selectCount(getState())`
and dispatches `incrementByAmount(amount)` when
`currentValue % 2 === 1`.  JavaScript `%` is truncated remainder
(`Int.tmod`), so the test is `currentValue.tmod 2 = 1`. -/
def incrementIfOdd (amount : Int) (s : RootState) : RootState :=
  let currentValue := selectCount s
  if currentValue.tmod 2 = 1 then
    dispatchCounter (fun c => incrementByAmount c amount) s
  else
    s

/-- The actions a client can feed the container: the three synchronous
reducers, the `incrementIfOdd` thunk, and the three lifecycle steps of
`incrementAsync`. -/
inductive Action where
  | increment
  | decrement
  | incrementByAmount (n : Int)
  | incrementIfOdd (n : Int)
  | asyncPending
  | asyncFulfilled (r : Int)
  | asyncRejected
  deriving DecidableEq, Repr

/-- Interpretation of one action on the root state. -/
def applyAction (s : RootState) : Action → RootState
  | Action.increment => dispatchCounter increment s
  | Action.decrement => dispatchCounter decrement s
  | Action.incrementByAmount n => dispatchCounter (fun c => incrementByAmount c n) s
  | Action.incrementIfOdd n => incrementIfOdd n s
  | Action.asyncPending => dispatchCounter incrementAsyncPending s
  | Action.asyncFulfilled r => dispatchCounter (fun c => incrementAsyncFulfilled c r) s
  | Action.asyncRejected => dispatchCounter incrementAsyncRejected s

/-- Interpretation of a sequence of actions, first action first. -/
def applyActions (s : RootState) : List Action → RootState
  | [] => s
  | a :: rest => applyActions (applyAction s a) rest

/-- The root state at session start. -/
def initialRootState : RootState := { counter := initialState }

/-! ## Helper lemmas -/

/-- JavaScript truncated remainder by 2 equals 1 exactly on the odd
nonnegative integers: for a negative odd `x`, `x % 2` is `-1` in
JavaScript, not `1`. -/
theorem tmod_two_eq_one_iff (x : Int) : x.tmod 2 = 1 ↔ Odd x ∧ 0 ≤ x := by
  constructor
  · intro h
    rcases x with m | m
    · have h2 : (Int.ofNat m).tmod 2 = ((m % 2 : Nat) : Int) := rfl
      rw [h2] at h
      have h3 : m % 2 = 1 := by exact_mod_cast h
      have h4 : Odd m := Nat.odd_iff.mpr h3
      exact ⟨by rw [Int.ofNat_eq_natCast]; exact_mod_cast h4, Int.ofNat_nonneg m⟩
    · exfalso
      have h2 : (Int.negSucc m).tmod 2 = -(((m + 1) % 2 : Nat) : Int) := rfl
      rw [h2] at h
      omega
  · rintro ⟨ho, hn⟩
    rw [Int.tmod_eq_emod hn (by norm_num)]
    exact Int.odd_iff.mp ho

/-- Iterating `increment` `k` times adds `k` to the value and keeps the
status. -/
theorem increment_iterate (k : Nat) (s : CounterState) :
    increment^[k] s = { s with value := s.value + k } := by
  induction k generalizing s with
  | zero => simp
  | succ k ih =>
    rw [Function.iterate_succ_apply, ih]
    simp [increment]
    omega

/-- Iterating `decrement` `k` times subtracts `k` from the value and
keeps the status. -/
theorem decrement_iterate (k : Nat) (s : CounterState) :
    decrement^[k] s = { s with value := s.value - k } := by
  induction k generalizing s with
  | zero => simp
  | succ k ih =>
    rw [Function.iterate_succ_apply, ih]
    simp [decrement]
    omega

/-- Running a list made only of `increment` and `decrement` actions adds
the number of increments and subtracts the number of decrements. -/
theorem applyActions_count_value (l : List Action) :
    ∀ s : RootState, (∀ a ∈ l, a = Action.increment ∨ a = Action.decrement) →
      (applyActions s l).counter.value =
        s.counter.value + l.count Action.increment - l.count Action.decrement := by
  induction l with
  | nil => intro s _; simp [applyActions]
  | cons a rest ih =>
    intro s hmem
    have ha : a = Action.increment ∨ a = Action.decrement :=
      hmem a (List.mem_cons_self a rest)
    have hrest : ∀ b ∈ rest, b = Action.increment ∨ b = Action.decrement :=
      fun b hb => hmem b (List.mem_cons_of_mem a hb)
    rcases ha with ha | ha <;> subst ha <;>
      rw [applyActions, applyAction, ih _ hrest] <;>
      simp [dispatchCounter, increment, decrement, List.count_cons] <;>
      omega

/-! ## Claims -/

/-- Claim C1, counterexample: `-3` is odd, yet `incrementIfOdd(10)` on a
state whose counter value is `-3` is a no-op rather than a dispatch of
`incrementByAmount(10)`: JavaScript `-3 % 2` is `-1`, not `1`, so the
resulting value is `-3` and not `-3 + 10`. -/
theorem incrementIfOdd_neg_odd_noop :
    Odd ((-3 : Int)) ∧
    incrementIfOdd 10 { counter := { value := -3, status := Status.idle } } =
      { counter := { value := -3, status := Status.idle } } ∧
    (incrementIfOdd 10
        { counter := { value := -3, status := Status.idle } }).counter.value ≠
      -3 + 10 := by
  refine ⟨⟨-2, by norm_num⟩, ?_, ?_⟩ <;> decide

/-- Claim C1, amended: for every state and amount, `incrementIfOdd(amount)`
dispatches `incrementByAmount(amount)` (so the resulting value equals
`value + amount`) whenever the current value is odd AND nonnegative, and
is a no-op (state unchanged) whenever the current value is even or
negative; in particular negative odd values are a no-op, because the
thunk tests `value % 2 === 1` with JavaScript's truncated remainder. -/
theorem incrementIfOdd_spec (s : RootState) (amount : Int) :
    (Odd (selectCount s) → 0 ≤ selectCount s →
      incrementIfOdd amount s =
          dispatchCounter (fun c => incrementByAmount c amount) s ∧
        (incrementIfOdd amount s).counter.value = selectCount s + amount) ∧
    (¬ Odd (selectCount s) ∨ selectCount s < 0 →
      incrementIfOdd amount s = s) := by
  constructor
  · intro ho hn
    have h : (s.counter.value).tmod 2 = 1 :=
      (tmod_two_eq_one_iff _).mpr ⟨ho, hn⟩
    constructor
    · simp [incrementIfOdd, selectCount, h]
    · simp [incrementIfOdd, selectCount, h, dispatchCounter, incrementByAmount]
  · intro hor
    have h : ¬ (s.counter.value).tmod 2 = 1 := by
      intro h1
      rcases (tmod_two_eq_one_iff _).mp h1 with ⟨ho, hn⟩
      rcases hor with hor | hor
      · exact hor ho
      · have hn2 : 0 ≤ selectCount s := hn
        omega
    simp [incrementIfOdd, selectCount, h]

/-- Claim C1, witness: on value `3` (odd, nonnegative) the thunk
dispatches and yields value `13`; on value `-3` (odd, negative) it is a
no-op. -/
theorem incrementIfOdd_spec_witness :
    incrementIfOdd 10 { counter := { value := 3, status := Status.idle } } =
      { counter := { value := 13, status := Status.idle } } ∧
    incrementIfOdd 10 { counter := { value := -3, status := Status.idle } } =
      { counter := { value := -3, status := Status.idle } } := by
  constructor
  · have h :=
      (incrementIfOdd_spec { counter := { value := 3, status := Status.idle } }
        10).1 ⟨1, by decide⟩ (by decide)
    exact h.1.trans (by decide)
  · exact
      (incrementIfOdd_spec { counter := { value := -3, status := Status.idle } }
        10).2 (Or.inr (by decide))

/-- Claim C2: `incrementByAmount(n)` yields the same value as `n`
sequential calls to `increment` when `n ≥ 0`, and as `|n|` sequential
calls to `decrement` when `n < 0`. -/
theorem incrementByAmount_iterate (s : CounterState) (n : Int) :
    (0 ≤ n →
      (incrementByAmount s n).value = (increment^[n.toNat] s).value) ∧
    (n < 0 →
      (incrementByAmount s n).value = (decrement^[n.natAbs] s).value) := by
  constructor
  · intro hn
    rw [increment_iterate]
    simp only [incrementByAmount]
    omega
  · intro hn
    rw [decrement_iterate]
    simp only [incrementByAmount]
    omega

/-- Claim C2, witness: `incrementByAmount 3` agrees with three
`increment`s and `incrementByAmount (-2)` agrees with two `decrement`s,
from the initial state. -/
theorem incrementByAmount_iterate_witness :
    (incrementByAmount initialState 3).value =
      (increment^[(3 : Int).toNat] initialState).value ∧
    (incrementByAmount initialState (-2)).value =
      (decrement^[(-2 : Int).natAbs] initialState).value :=
  ⟨(incrementByAmount_iterate initialState 3).1 (by norm_num),
   (incrementByAmount_iterate initialState (-2)).2 (by norm_num)⟩

/-- Claim C3: the `rejected` reducer of `incrementAsync` sets
`status = failed` and leaves `value` unchanged. -/
theorem rejected_sets_failed_keeps_value (s : CounterState) :
    (incrementAsyncRejected s).status = Status.failed ∧
    (incrementAsyncRejected s).value = s.value :=
  ⟨rfl, rfl⟩

/-- Claim C4: the `pending` reducer sets `status = loading` and keeps
`value`; the `fulfilled` reducer with payload `r` sets `status = idle`
and adds `r` to `value`. -/
theorem pending_fulfilled_spec (s : CounterState) (r : Int) :
    (incrementAsyncPending s).status = Status.loading ∧
    (incrementAsyncPending s).value = s.value ∧
    (incrementAsyncFulfilled s r).status = Status.idle ∧
    (incrementAsyncFulfilled s r).value = s.value + r :=
  ⟨rfl, rfl, rfl, rfl⟩

/-- Claim C5: after any sequence of the defined operations starting from
the initial state, the `status` field is `idle`, `loading` or `failed`
and never anything else. -/
theorem status_always_in_range (l : List Action) :
    (applyActions initialRootState l).counter.status = Status.idle ∨
    (applyActions initialRootState l).counter.status = Status.loading ∨
    (applyActions initialRootState l).counter.status = Status.failed := by
  rcases h : (applyActions initialRootState l).counter.status with _ | _ | _
  · exact Or.inl rfl
  · exact Or.inr (Or.inl rfl)
  · exact Or.inr (Or.inr rfl)

/-- Claim C6: any interleaving of equally many `increment` and
`decrement` actions returns the `value` field to its original value. -/
theorem inc_dec_balanced_restores_value (s : RootState) (l : List Action)
    (hmem : ∀ a ∈ l, a = Action.increment ∨ a = Action.decrement)
    (hcount : l.count Action.increment = l.count Action.decrement) :
    (applyActions s l).counter.value = s.counter.value := by
  rw [applyActions_count_value l s hmem, hcount]
  ring

/-- Claim C6, witness: the interleaving
`[increment, decrement, increment, decrement]` restores value `0` from
the initial state. -/
theorem inc_dec_balanced_restores_value_witness :
    (applyActions initialRootState
        [Action.increment, Action.decrement, Action.increment,
          Action.decrement]).counter.value =
      initialRootState.counter.value :=
  inc_dec_balanced_restores_value initialRootState
    [Action.increment, Action.decrement, Action.increment, Action.decrement]
    (by decide) (by decide)

/-- Claim C7: the initial state has `value = 0` and `status = idle`. -/
theorem initialState_spec :
    initialState.value = 0 ∧ initialState.status = Status.idle :=
  ⟨rfl, rfl⟩

/-- Claim C8: `selectCount` returns exactly the counter's `value` field
and is pure: applied to equal states it returns equal results, and it
does not modify the state (it is a plain function of the state). -/
theorem selectCount_spec (s t : RootState) :
    selectCount s = s.counter.value ∧
    (s = t → selectCount s = selectCount t) :=
  ⟨rfl, fun h => by rw [h]⟩

/-- Claim C8, witness: `selectCount` on the initial root state returns
its counter value, and equal inputs give equal outputs. -/
theorem selectCount_spec_witness :
    selectCount initialRootState = initialRootState.counter.value ∧
    selectCount initialRootState = selectCount initialRootState :=
  ⟨(selectCount_spec initialRootState initialRootState).1,
   (selectCount_spec initialRootState initialRootState).2 rfl⟩

/-- Claim C9: the `fulfilled` payload of `incrementAsync(amount)` is the
number resolved by `fetchCount(amount)`, which echoes `amount`; hence a
successful `incrementAsync(amount)` on value `v` yields `v + amount`
with `status = idle`. -/
theorem fulfilled_payload_echo (amount : Int) (s : CounterState) :
    incrementAsyncPayload amount = fetchCount amount ∧
    incrementAsyncPayload amount = amount ∧
    (incrementAsyncFulfilled s (incrementAsyncPayload amount)).value =
      s.value + amount ∧
    (incrementAsyncFulfilled s (incrementAsyncPayload amount)).status =
      Status.idle :=
  ⟨rfl, rfl, rfl, rfl⟩

/-- Claim C10: `increment`, `decrement` and `incrementByAmount` leave
the `status` field unchanged, and `incrementIfOdd` never changes
`status` in either branch. -/
theorem sync_reducers_keep_status (s : CounterState) (r : RootState)
    (n : Int) :
    (increment s).status = s.status ∧
    (decrement s).status = s.status ∧
    (incrementByAmount s n).status = s.status ∧
    (incrementIfOdd n r).counter.status = r.counter.status := by
  refine ⟨rfl, rfl, rfl, ?_⟩
  by_cases h : (selectCount r).tmod 2 = 1 <;>
    simp [incrementIfOdd, h, dispatchCounter, incrementByAmount]

end CounterSlice
